import Mathlib

/-!
Verification development for the NFL play-animation repository
(files animator.py and 2d.py). The trajectory reconstruction of
NFLPlayAnimator.add_z_coordinates (animator.py, lines 22-129) and the
frame-assembly loops of both animate_play functions are embedded as
Lean functions. Python/pandas floats are modelled as exact rationals
(with square roots and arctangents over the reals); pandas NaN cells
are modelled as Option.none; a pandas .iloc[0] or list[0] access on an
empty selection is modelled as the IndexError value.
-/

namespace NFL

/-- One row of the tracking table. Only the columns the animators read
are modelled; hover-text-only columns (jersey number, speed, heading)
are omitted. NaN-able columns are Options. -/
structure Row where
  displayName : Option String
  nflId : Option Int
  club : Option String
  frameId : Int
  event : Option String
  x : ℚ
  y : ℚ
deriving DecidableEq, Inhabited

/-- The only runtime error the modelled code can actually raise: a
positional access on an empty selection (list index out of range /
iloc out of bounds). The source defines no named domain errors. -/
inductive PyErr where
  | indexError
deriving DecidableEq, Inhabited

/-- animator.py line 20: self.GRAVITY = 10.725 (yards per second per second). -/
def GRAVITY : ℚ := 10.725

/-- animator.py lines 35-37: the arrival-type event labels. -/
def arrivalEvents : List String :=
  ["pass_arrived", "pass_outcome_interception", "pass_outcome_touchdown",
   "pass_outcome_caught", "pass_outcome_incomplete"]

/-- animator.py line 28: df[df['displayName'] == 'football'].
A NaN displayName compares unequal to 'football' in pandas, hence the
some-pattern. -/
def footballRows (rows : List Row) : List Row :=
  rows.filter (fun r => r.displayName = some "football")

/-- pandas Series.min(): NaN (none) on an empty series, else the minimum. -/
def seriesMin : List Int → Option Int
  | [] => none
  | x :: xs => some (xs.foldl min x)

/-- Insert into an ascending list, keeping it ascending. -/
def insertAsc (x : Int) : List Int → List Int
  | [] => [x]
  | y :: ys => if x ≤ y then x :: y :: ys else y :: insertAsc x ys

/-- Insertion sort, ascending: models Python sorted(...). -/
def sortAsc : List Int → List Int
  | [] => []
  | x :: xs => insertAsc x (sortAsc xs)

/-- animator.py line 42: sorted(football_data['frameId'].unique()). -/
def uniqueSorted (l : List Int) : List Int := sortAsc l.dedup

/-- animator.py lines 55-58: the two while loops
  while f not in all_frames and f < all_frames[-1]: f += 1
The fuel argument is the iteration bound (lastF - f).toNat: each
iteration requires f < lastF and increments f, so the loop body can
run at most that many times; at fuel 0 the guard is already false. -/
def advanceIntoFrames (allFrames : List Int) (lastF : Int) : Nat → Int → Int
  | 0, f => f
  | fuel + 1, f =>
      if f ∉ allFrames ∧ f < lastF then advanceIntoFrames allFrames lastF fuel (f + 1)
      else f

/-- animator.py lines 31-62: locate the pass_forward and arrival frames
from the events, with the estimation fallback when either is missing.
Accessing all_frames[0] (line 46) or all_frames[-1] (lines 55-60) on an
empty frame list is an IndexError. -/
def locateFrames (rows : List Row) : Except PyErr (Int × Int) :=
  let fb := footballRows rows
  let pfOpt := seriesMin ((fb.filter (fun r => r.event = some "pass_forward")).map (·.frameId))
  let paOpt := seriesMin ((fb.filter (fun r =>
      match r.event with
      | some e => e ∈ arrivalEvents
      | none => False)).map (·.frameId))
  match pfOpt, paOpt with
  | some pf, some pa => .ok (pf, pa)
  | _, _ =>
    let allFrames := uniqueSorted (fb.map (·.frameId))
    let snapOpt := seriesMin ((fb.filter (fun r => r.event = some "ball_snap")).map (·.frameId))
    match (match snapOpt with | some s => some s | none => allFrames.head?) with
    | none => .error .indexError
    | some snap =>
      match allFrames.getLast? with
      | none => .error .indexError
      | some lastF =>
        let pf0 := snap + 10
        let pa0 := pf0 + 20
        let pf1 := advanceIntoFrames allFrames lastF (lastF - pf0).toNat pf0
        let pa1 := advanceIntoFrames allFrames lastF (lastF - pa0).toNat pa0
        if pf1 ≥ lastF ∨ pa1 ≥ lastF then
          .ok (allFrames.getD (allFrames.length / 3) 0,
               allFrames.getD (2 * allFrames.length / 3) 0)
        else
          .ok (pf1, pa1)

/-- animator.py lines 73-74: football_data[football_data['frameId'] == f].iloc[0],
as an Option (none models the IndexError of .iloc[0] on an empty frame). -/
def ballAtFrame (rows : List Row) (f : Int) : Option Row :=
  ((footballRows rows).filter (fun r => r.frameId = f)).head?

/-- One output row of add_z_coordinates: the input row with the added
seconds_since_throw, z, z1, z2 columns (animator.py lines 65-110). -/
structure ZRow where
  row : Row
  seconds_since_throw : ℚ
  z : ℚ
  z1 : ℚ
  z2 : ℚ
deriving DecidableEq, Inhabited

/-- The output of add_z_coordinates: the augmented rows plus the exact
(rational) metrics entries of the returned dictionary (lines 113-127).
The square-root- and arctangent-valued metrics are the separate
real-valued functions distance, vxy, v_0 and launch_angle below. -/
structure Core where
  pass_forward_frame : Int
  pass_arrived_frame : Int
  time_of_flight : ℚ
  vertical_velocity : ℚ
  vz1 : ℚ
  vz2 : ℚ
  start_x : ℚ
  start_y : ℚ
  end_x : ℚ
  end_y : ℚ
  distSq : ℚ
  max_height : ℚ
  zrows : List ZRow
deriving DecidableEq, Inhabited

/-- pandas Series.max() over the z column; the empty case is
unreachable on the success path (the ball track is nonempty there). -/
def listMaxQ : List ℚ → ℚ
  | [] => 0
  | x :: xs => xs.foldl max x

/-- animator.py lines 65-110: one output row. The columns
seconds_since_throw, z, z1 and z2 are functions of the row and of the
two located frames only (the velocities vz, vz1, vz2 of lines 84-86
are recomputed inline; they depend only on pf and pa). Division by a
zero time_of_flight follows the Lean convention x / 0 = 0 where NumPy
floats would give inf or nan; no claim depends on vz1 or vz2. -/
def zassign (pf pa : Int) (r : Row) : ZRow :=
  let time_of_flight : ℚ := ((pa - pf : Int) : ℚ) / 10
  let vz : ℚ := time_of_flight * GRAVITY / 2
  let vz1 : ℚ := (0.5 + 0.5 * GRAVITY * time_of_flight ^ 2) / time_of_flight
  let vz2 : ℚ := (-0.5 + 0.5 * GRAVITY * time_of_flight ^ 2) / time_of_flight
  let s : ℚ := ((r.frameId - pf : Int) : ℚ) / 10
  { row := r
    seconds_since_throw := s
    z := if r.displayName = some "football" ∧ pf ≤ r.frameId ∧ r.frameId ≤ pa then
           2 + vz * s - 0.5 * GRAVITY * s ^ 2
         else 0
    z1 := if r.displayName = some "football" ∧ pf ≤ r.frameId ∧ r.frameId ≤ pa then
            1.5 + vz1 * s - 0.5 * GRAVITY * s ^ 2
          else 0
    z2 := if r.displayName = some "football" ∧ pf ≤ r.frameId ∧ r.frameId ≤ pa then
            2.5 + vz2 * s - 0.5 * GRAVITY * s ^ 2
          else 0 }

/-- animator.py lines 64-127, the straight-line part after the frames
are located and the start/end rows looked up. -/
def buildCore (rows : List Row) (pf pa : Int) (startPos endPos : Row) : Core :=
  let zrows := rows.map (zassign pf pa)
  { pass_forward_frame := pf
    pass_arrived_frame := pa
    time_of_flight := ((pa - pf : Int) : ℚ) / 10
    vertical_velocity := ((pa - pf : Int) : ℚ) / 10 * GRAVITY / 2
    vz1 := (0.5 + 0.5 * GRAVITY * (((pa - pf : Int) : ℚ) / 10) ^ 2) / (((pa - pf : Int) : ℚ) / 10)
    vz2 := (-0.5 + 0.5 * GRAVITY * (((pa - pf : Int) : ℚ) / 10) ^ 2) / (((pa - pf : Int) : ℚ) / 10)
    start_x := startPos.x
    start_y := startPos.y
    end_x := endPos.x
    end_y := endPos.y
    distSq := (startPos.x - endPos.x) ^ 2 + (startPos.y - endPos.y) ^ 2
    max_height := listMaxQ (zrows.map (·.z))
    zrows := zrows }

/-- NFLPlayAnimator.add_z_coordinates (animator.py lines 22-129). -/
def add_z_coordinates (rows : List Row) : Except PyErr Core :=
  match locateFrames rows with
  | .error e => .error e
  | .ok (pf, pa) =>
    match ballAtFrame rows pf, ballAtFrame rows pa with
    | some s, some e => .ok (buildCore rows pf pa s e)
    | _, _ => .error .indexError

/-- animator.py lines 77-78: distance = sqrt((sx-ex)^2 + (sy-ey)^2). -/
noncomputable def distance (c : Core) : ℝ := Real.sqrt ((c.distSq : ℝ))

/-- animator.py line 81: vxy = distance / time_of_flight. -/
noncomputable def vxy (c : Core) : ℝ := distance c / (c.time_of_flight : ℝ)

/-- animator.py line 89: v_0 = sqrt(vz^2 + vxy^2). -/
noncomputable def v_0 (c : Core) : ℝ :=
  Real.sqrt ((c.vertical_velocity : ℝ) ^ 2 + vxy c ^ 2)

/-- animator.py line 90: launch_angle = degrees(arctan(vz / vxy)). -/
noncomputable def launch_angle (c : Core) : ℝ :=
  Real.arctan ((c.vertical_velocity : ℝ) / vxy c) * 180 / Real.pi

/-- The team color table shared by both animators (self.colors). -/
def colors : List (String × String) :=
  [("ARI", "#97233F"), ("ATL", "#A71930"), ("BAL", "#241773"), ("BUF", "#00338D"),
   ("CAR", "#0085CA"), ("CHI", "#C83803"), ("CIN", "#FB4F14"), ("CLE", "#311D00"),
   ("DAL", "#003594"), ("DEN", "#FB4F14"), ("DET", "#0076B6"), ("GB", "#203731"),
   ("HOU", "#03202F"), ("IND", "#002C5F"), ("JAX", "#9F792C"), ("KC", "#E31837"),
   ("LA", "#003594"), ("LAC", "#0080C6"), ("LV", "#000000"), ("MIA", "#008E97"),
   ("MIN", "#4F2683"), ("NE", "#002244"), ("NO", "#D3BC8D"), ("NYG", "#0B2265"),
   ("NYJ", "#125740"), ("PHI", "#004C54"), ("PIT", "#FFB612"), ("SEA", "#69BE28"),
   ("SF", "#AA0000"), ("TB", "#D50A0A"), ("TEN", "#4B92DB"), ("WAS", "#5A1414"),
   ("football", "#654321")]

/-- self.colors.get(team, "#000000"). -/
def colorGet (team : String) : String := (colors.lookup team).getD "#000000"

/-- A plotly trace of the 3D animator, at the granularity the claims
need: coordinate lists plus color/name. -/
inductive Trace3d where
  | mesh (xs ys zs : List ℚ) (color : String)
  | scatter (xs ys zs : List ℚ) (name : String) (color : String)
deriving DecidableEq, Inhabited

/-- animator.py lines 399-405: _create_grid. -/
def createGrid (xMin xMax yMin yMax zVal : ℚ) : List ℚ × List ℚ × List ℚ :=
  ([xMin, xMin, xMax, xMax], [yMin, yMax, yMax, yMin], [zVal, zVal, zVal, zVal])

/-- Wrap a grid as a Mesh3d trace. -/
def meshOf (g : List ℚ × List ℚ × List ℚ) (color : String) : Trace3d :=
  Trace3d.mesh g.1 g.2.1 g.2.2 color

/-- animator.py lines 322-397: create_field_surface (main field, two
endzones, 21 yard lines, two bands of 101 hash marks). -/
def create_field_surface : List Trace3d :=
  [meshOf (createGrid 10 110 0 53.3 0) "green",
   meshOf (createGrid 0 10 0 53.3 0) "blue",
   meshOf (createGrid 110 120 0 53.3 0) "red"] ++
  (List.range 21).map (fun i =>
    let yard : ℚ := 10 + 5 * i
    meshOf (createGrid (yard - 0.1) (yard + 0.1) 0 53.3 0.1) "white") ++
  (List.range 101).map (fun i =>
    let yard : ℚ := 10 + i
    meshOf (createGrid (yard - 0.1) (yard + 0.1) 22.5 23.5 0.1) "white") ++
  (List.range 101).map (fun i =>
    let yard : ℚ := 10 + i
    meshOf (createGrid (yard - 0.1) (yard + 0.1) 28.75 29.75 0.1) "white")

/-- animator.py lines 155-211: the per-frame traces of the 3D
animator (football marker first, then one marker group per club; a
NaN club is skipped; a NaN displayName row still lands in its club's
marker group because NaN != 'football' holds in pandas). -/
def frame3dTraces (zrows : List ZRow) (f : Int) : List Trace3d :=
  let frameData := zrows.filter (fun zr => zr.row.frameId = f)
  let footballData := frameData.filter (fun zr => zr.row.displayName = some "football")
  let ballTraces : List Trace3d :=
    if footballData.isEmpty then []
    else [Trace3d.scatter (footballData.map (·.row.x)) (footballData.map (·.row.y))
            (footballData.map (·.z)) "football" (colorGet "football")]
  let clubs := ((frameData.map (·.row.club)).dedup).filterMap id
  let teamTraces := clubs.map (fun c =>
    let teamData := frameData.filter
      (fun zr => zr.row.club = some c ∧ ¬ zr.row.displayName = some "football")
    Trace3d.scatter (teamData.map (·.row.x)) (teamData.map (·.row.y))
      (teamData.map (fun _ => (1 : ℚ))) c (colorGet c))
  ballTraces ++ teamTraces

/-- animator.py lines 131-268 restricted to the emitted frame
sequence: add_z_coordinates, then one frame per sorted unique frameId,
each frame being frame_traces + field_surfaces (line 227), with the
field surfaces built once (line 148). -/
def animate_play3d (rows : List Row) : Except PyErr (List (List Trace3d)) :=
  match add_z_coordinates rows with
  | .error e => .error e
  | .ok c =>
    .ok ((uniqueSorted (c.zrows.map (·.row.frameId))).map (fun f =>
      frame3dTraces c.zrows f ++ create_field_surface))

/-- A plotly trace of the 2D animator: filled shapes, lines, and
marker groups (with the marker size and symbol that distinguish the
football marker from the club markers). -/
inductive Trace2d where
  | fill (xs ys : List ℚ) (fillcolor : String)
  | line (xs ys : List ℚ) (color : String)
  | markers (xs ys : List ℚ) (name : String) (color : String) (size : ℚ) (symbol : Option String)
deriving DecidableEq, Inhabited

/-- 2d.py lines 47-143: create_field_markers (main field, two
endzones, 21 yard lines, two bands of 101 hash marks, boundary). -/
def create_field_markers : List Trace2d :=
  [Trace2d.fill [0, 120, 120, 0, 0] [0, 0, 53.3, 53.3, 0] "rgba(0, 153, 0, 0.4)",
   Trace2d.fill [0, 10, 10, 0, 0] [0, 0, 53.3, 53.3, 0] "rgba(0, 0, 153, 0.4)",
   Trace2d.fill [110, 120, 120, 110, 110] [0, 0, 53.3, 53.3, 0] "rgba(153, 0, 0, 0.4)"] ++
  (List.range 21).map (fun i =>
    let yard : ℚ := 10 + 5 * i
    Trace2d.line [yard, yard] [0, 53.3] "rgba(255, 255, 255, 0.30)") ++
  (List.range 101).map (fun i =>
    let yard : ℚ := 10 + i
    Trace2d.line [yard, yard] [22.5, 23.5] "rgba(255, 255, 255, 0.25)") ++
  (List.range 101).map (fun i =>
    let yard : ℚ := 10 + i
    Trace2d.line [yard, yard] [29.8, 30.8] "rgba(255, 255, 255, 0.25)") ++
  [Trace2d.line [0, 120, 120, 0, 0] [0, 0, 53.3, 53.3, 0] "rgba(255, 255, 255, 0.5)"]

/-- 2d.py line 199: rows of one club's marker group, excluding the
ball by displayName equality. -/
def clubRows2d (frameRows : List Row) (c : String) : List Row :=
  frameRows.filter (fun r => r.club = some c ∧ ¬ r.displayName = some "football")

/-- 2d.py line 227: rows of the football marker, selected by a null
nflId (frame_data.nflId.isna()). -/
def footballRows2d (frameRows : List Row) : List Row :=
  frameRows.filter (fun r => r.nflId = none)

/-- 2d.py lines 172-256, one frame's data list: the field elements
(copied unchanged), the line-of-scrimmage and first-down lines, one
marker group per club, then the football marker when a null-nflId row
exists in the frame. -/
def frame2dData (frameRows : List Row) (lineOfScrimmage firstDownMarker : ℚ) : List Trace2d :=
  create_field_markers ++
  ([Trace2d.line [lineOfScrimmage, lineOfScrimmage] [0, 53.3] "rgba(135, 206, 235, 0.4)",
    Trace2d.line [firstDownMarker, firstDownMarker] [0, 53.3] "rgba(255, 255, 0, 0.8)"] ++
   ((((frameRows.map (·.club)).dedup).filterMap id).map (fun c =>
      Trace2d.markers ((clubRows2d frameRows c).map (·.x)) ((clubRows2d frameRows c).map (·.y))
        c (colorGet c) 12 none) ++
    (if (footballRows2d frameRows).isEmpty then []
     else [Trace2d.markers ((footballRows2d frameRows).map (·.x))
            ((footballRows2d frameRows).map (·.y))
            "football" (colorGet "football") 8 (some "diamond")])))

/-- 2d.py lines 144-256 restricted to the emitted frame sequence: one
frame per sorted unique frameId, with the field elements built once
(line 169) and reused in every frame (line 174). -/
def animate_play2d (rows : List Row) (lineOfScrimmage firstDownMarker : ℚ) : List (List Trace2d) :=
  (uniqueSorted (rows.map (·.frameId))).map (fun f =>
    frame2dData (rows.filter (fun r => r.frameId = f)) lineOfScrimmage firstDownMarker)

/-- Recognizes the football marker trace of the 2D animator (size 8,
diamond symbol; club marker groups have size 12 and no symbol). -/
def isFootballMarker : Trace2d → Bool
  | Trace2d.markers _ _ _ _ _ sym => sym == some "diamond"
  | _ => false

/-- Recognizes a club marker group of the 2D animator (no symbol,
unlike the football's diamond marker). -/
def isClubMarker : Trace2d → Bool
  | Trace2d.markers _ _ _ _ _ sym => sym == none
  | _ => false

/-- A football tracking row (the ball's club column is the string
"football" in this dataset, and its nflId is null). -/
def ballRow (f : Int) (ev : Option String) (px py : ℚ) : Row :=
  { displayName := some "football", nflId := none, club := some "football",
    frameId := f, event := ev, x := px, y := py }

/-- The scenario input of spec section 8: ball frames 20..40, release
event at frame 20 at ground position (10, 0), arrival event at frame
40 at ground position (40, 0), linear ground track between them. -/
def throwInput : List Row :=
  [ballRow 20 (some "pass_forward") 10 0,
   ballRow 21 none 11.5 0,
   ballRow 22 none 13 0,
   ballRow 23 none 14.5 0,
   ballRow 24 none 16 0,
   ballRow 25 none 17.5 0,
   ballRow 26 none 19 0,
   ballRow 27 none 20.5 0,
   ballRow 28 none 22 0,
   ballRow 29 none 23.5 0,
   ballRow 30 none 25 0,
   ballRow 31 none 26.5 0,
   ballRow 32 none 28 0,
   ballRow 33 none 29.5 0,
   ballRow 34 none 31 0,
   ballRow 35 none 32.5 0,
   ballRow 36 none 34 0,
   ballRow 37 none 35.5 0,
   ballRow 38 none 37 0,
   ballRow 39 none 38.5 0,
   ballRow 40 (some "pass_arrived") 40 0]

/-- The start row that the reconstruction looks up on throwInput. -/
def throwStart : Row := (ballAtFrame throwInput 20).getD default

/-- The end row that the reconstruction looks up on throwInput. -/
def throwEnd : Row := (ballAtFrame throwInput 40).getD default

/-- The reconstruction output on throwInput. -/
def throwCore : Core := ((add_z_coordinates throwInput).toOption).getD default

/-- A malformed track whose release and arrival events sit on the same
frame 20 (duplicate ball rows on one frame). -/
def degenInput : List Row :=
  [ballRow 20 (some "pass_forward") 10 0,
   ballRow 20 (some "pass_arrived") 10 0,
   ballRow 21 none 12 0,
   ballRow 22 none 14 0]

/-- The reconstruction output on degenInput. -/
def degenCore : Core := ((add_z_coordinates degenInput).toOption).getD default

/-- A 60-frame ball track (frames 1..60) with no event labels at all. -/
def noEventsInput : List Row :=
  (List.range 60).map (fun k => ballRow (1 + (k : Int)) none (k : ℚ) 0)

/-- The reconstruction output on noEventsInput. -/
def noEventsCore : Core := ((add_z_coordinates noEventsInput).toOption).getD default

/-- A track with player rows only and no football-labeled row. -/
def noBallInput : List Row :=
  [{ displayName := some "Tom Brady", nflId := some 12, club := some "NE",
     frameId := 1, event := some "ball_snap", x := 50, y := 20 },
   { displayName := some "Aaron Donald", nflId := some 99, club := some "LA",
     frameId := 1, event := none, x := 52, y := 20 },
   { displayName := some "Tom Brady", nflId := some 12, club := some "NE",
     frameId := 2, event := none, x := 50, y := 21 }]

/-- A valid throw (release 20, arrival 40) whose ball track samples
only frames 20, 35 and 40: the airborne window is not contiguously
sampled. -/
def gapInput : List Row :=
  [ballRow 20 (some "pass_forward") 10 0,
   ballRow 35 none 30 0,
   ballRow 40 (some "pass_arrived") 40 0]

/-- The reconstruction output on gapInput. -/
def gapCore : Core := ((add_z_coordinates gapInput).toOption).getD default

/-- The vertical-offset formula exactly as the specification states it:
base height 2 plus vz t minus half GRAVITY t squared, with t the frame
offset over the 10 Hz rate and vz the duration-times-gravity-over-two
closed form. Stated from the spec wording, to be compared with the z
column the code computes. -/
def specOffset (r a f : Int) : ℚ :=
  2 + (((a - r : Int) : ℚ) / 10 * 10.725 / 2) * (((f - r : Int) : ℚ) / 10)
    - 0.5 * 10.725 * (((f - r : Int) : ℚ) / 10) ^ 2

section Helpers

lemma specOffset_factored (r a f : Int) :
    specOffset r a f = 2 + GRAVITY / 200 * (((f - r : Int) : ℚ) * ((a - f : Int) : ℚ)) := by
  unfold specOffset GRAVITY
  push_cast
  ring

lemma specOffset_nonneg {r a f : Int} (h1 : r ≤ f) (h2 : f ≤ a) : 0 ≤ specOffset r a f := by
  rw [specOffset_factored]
  have hg : (0 : ℚ) ≤ GRAVITY / 200 := by unfold GRAVITY; norm_num
  have h1q : (0 : ℚ) ≤ ((f - r : Int) : ℚ) := by exact_mod_cast by omega
  have h2q : (0 : ℚ) ≤ ((a - f : Int) : ℚ) := by exact_mod_cast by omega
  have hp := mul_nonneg hg (mul_nonneg h1q h2q)
  linarith

lemma two_le_specOffset {r a f : Int} (h1 : r ≤ f) (h2 : f ≤ a) : 2 ≤ specOffset r a f := by
  rw [specOffset_factored]
  have hg : (0 : ℚ) ≤ GRAVITY / 200 := by unfold GRAVITY; norm_num
  have h1q : (0 : ℚ) ≤ ((f - r : Int) : ℚ) := by exact_mod_cast by omega
  have h2q : (0 : ℚ) ≤ ((a - f : Int) : ℚ) := by exact_mod_cast by omega
  have hp := mul_nonneg hg (mul_nonneg h1q h2q)
  linarith

lemma specOffset_symm {r a f g : Int} (h : f - r = a - g) : specOffset r a f = specOffset r a g := by
  rw [specOffset_factored, specOffset_factored]
  have h2 : a - f = g - r := by omega
  rw [h, h2]
  ring

/-- Among the integers of [0, D], the product d (D - d) is maximized at
the floor midpoint D / 2. -/
lemma int_prod_le_mid {D d : Int} (h0 : 0 ≤ d) (h1 : d ≤ D) :
    d * (D - d) ≤ D / 2 * (D - D / 2) := by
  have hm1 : 2 * (D / 2) ≤ D := by omega
  have hm2 : D ≤ 2 * (D / 2) + 1 := by omega
  have key : 0 ≤ (d - D / 2) * (d - D / 2 - 1) := by
    rcases le_or_lt d (D / 2) with hle | hgt
    · have a1 : (0 : Int) ≤ -(d - D / 2) := by omega
      have a2 : (0 : Int) ≤ -(d - D / 2 - 1) := by omega
      nlinarith [mul_nonneg a1 a2]
    · exact mul_nonneg (by omega) (by omega)
  nlinarith [key, hm1, hm2, sq_nonneg (d - D / 2)]

/-- The floor-midpoint frame achieves the largest specOffset among the
integer frames of the window. -/
lemma specOffset_le_mid {r a f : Int} (h1 : r ≤ f) (h2 : f ≤ a) :
    specOffset r a f ≤ specOffset r a (r + (a - r) / 2) := by
  rw [specOffset_factored, specOffset_factored]
  have hg : (0 : ℚ) ≤ GRAVITY / 200 := by unfold GRAVITY; norm_num
  have hint : (f - r) * (a - f) ≤ ((a - r) / 2) * ((a - r) - (a - r) / 2) := by
    have h := int_prod_le_mid (D := a - r) (d := f - r) (by omega) (by omega)
    have e0 : (a - r) - (f - r) = a - f := by omega
    rwa [e0] at h
  have hqq : ((f - r : Int) : ℚ) * ((a - f : Int) : ℚ)
      ≤ (((r + (a - r) / 2) - r : Int) : ℚ) * ((a - (r + (a - r) / 2) : Int) : ℚ) := by
    have iq : ((f - r) * (a - f) : Int) ≤ (((r + (a - r) / 2) - r) * (a - (r + (a - r) / 2)) : Int) := by
      have e1 : (r + (a - r) / 2) - r = (a - r) / 2 := by omega
      have e2 : a - (r + (a - r) / 2) = (a - r) - (a - r) / 2 := by omega
      rw [e1, e2]
      exact hint
    calc ((f - r : Int) : ℚ) * ((a - f : Int) : ℚ)
        = (((f - r) * (a - f) : Int) : ℚ) := by push_cast; ring
      _ ≤ ((((r + (a - r) / 2) - r) * (a - (r + (a - r) / 2)) : Int) : ℚ) := by exact_mod_cast iq
      _ = (((r + (a - r) / 2) - r : Int) : ℚ) * ((a - (r + (a - r) / 2) : Int) : ℚ) := by
          push_cast; ring
  nlinarith [hqq, hg]

lemma le_foldl_max_init (l : List ℚ) (a : ℚ) : a ≤ l.foldl max a := by
  induction l generalizing a with
  | nil => exact le_refl a
  | cons x xs ih => exact le_trans (le_max_left a x) (ih (max a x))

lemma le_foldl_max_of_mem {l : List ℚ} {b : ℚ} (h : b ∈ l) (a : ℚ) : b ≤ l.foldl max a := by
  induction l generalizing a with
  | nil => cases h
  | cons x xs ih =>
    rcases List.mem_cons.mp h with rfl | hmem
    · exact le_trans (le_max_right a b) (le_foldl_max_init xs (max a b))
    · exact ih hmem (max a x)

lemma foldl_max_mem (l : List ℚ) (a : ℚ) : l.foldl max a = a ∨ l.foldl max a ∈ l := by
  induction l generalizing a with
  | nil => exact Or.inl rfl
  | cons x xs ih =>
    rcases ih (max a x) with h | h
    · rcases max_choice a x with he | he
      · left
        rw [List.foldl_cons, h, he]
      · right
        rw [List.foldl_cons, h, he]
        exact List.mem_cons_self x xs
    · exact Or.inr (List.mem_cons_of_mem x h)

lemma listMaxQ_spec {l : List ℚ} (hne : l ≠ []) : listMaxQ l ∈ l ∧ ∀ b ∈ l, b ≤ listMaxQ l := by
  match l with
  | x :: xs =>
    refine ⟨?_, ?_⟩
    · show xs.foldl max x ∈ x :: xs
      rcases foldl_max_mem xs x with h | h
      · rw [h]
        exact List.mem_cons_self x xs
      · exact List.mem_cons_of_mem x h
    · intro b hb
      show b ≤ xs.foldl max x
      rcases List.mem_cons.mp hb with rfl | hmem
      · exact le_foldl_max_init xs b
      · exact le_foldl_max_of_mem hmem x

lemma zassign_row (pf pa : Int) (r : Row) : (zassign pf pa r).row = r := rfl

lemma zassign_z_in {pf pa : Int} {r : Row} (hb : r.displayName = some "football")
    (h1 : pf ≤ r.frameId) (h2 : r.frameId ≤ pa) :
    (zassign pf pa r).z = specOffset pf pa r.frameId := by
  have hc : r.displayName = some "football" ∧ pf ≤ r.frameId ∧ r.frameId ≤ pa := ⟨hb, h1, h2⟩
  simp only [zassign, if_pos hc, specOffset, GRAVITY]

lemma zassign_z_out {pf pa : Int} {r : Row}
    (h : ¬(r.displayName = some "football" ∧ pf ≤ r.frameId ∧ r.frameId ≤ pa)) :
    (zassign pf pa r).z = 0 := by
  simp only [zassign, if_neg h]

lemma buildCore_pf (rows : List Row) (pf pa : Int) (s e : Row) :
    (buildCore rows pf pa s e).pass_forward_frame = pf := rfl

lemma buildCore_pa (rows : List Row) (pf pa : Int) (s e : Row) :
    (buildCore rows pf pa s e).pass_arrived_frame = pa := rfl

lemma buildCore_tof (rows : List Row) (pf pa : Int) (s e : Row) :
    (buildCore rows pf pa s e).time_of_flight = ((pa - pf : Int) : ℚ) / 10 := rfl

lemma buildCore_vz (rows : List Row) (pf pa : Int) (s e : Row) :
    (buildCore rows pf pa s e).vertical_velocity = ((pa - pf : Int) : ℚ) / 10 * GRAVITY / 2 := rfl

lemma buildCore_sx (rows : List Row) (pf pa : Int) (s e : Row) :
    (buildCore rows pf pa s e).start_x = s.x := rfl

lemma buildCore_sy (rows : List Row) (pf pa : Int) (s e : Row) :
    (buildCore rows pf pa s e).start_y = s.y := rfl

lemma buildCore_ex (rows : List Row) (pf pa : Int) (s e : Row) :
    (buildCore rows pf pa s e).end_x = e.x := rfl

lemma buildCore_ey (rows : List Row) (pf pa : Int) (s e : Row) :
    (buildCore rows pf pa s e).end_y = e.y := rfl

lemma buildCore_distSq (rows : List Row) (pf pa : Int) (s e : Row) :
    (buildCore rows pf pa s e).distSq = (s.x - e.x) ^ 2 + (s.y - e.y) ^ 2 := rfl

lemma buildCore_zrows (rows : List Row) (pf pa : Int) (s e : Row) :
    (buildCore rows pf pa s e).zrows = rows.map (zassign pf pa) := rfl

lemma buildCore_maxh (rows : List Row) (pf pa : Int) (s e : Row) :
    (buildCore rows pf pa s e).max_height
      = listMaxQ ((rows.map (zassign pf pa)).map (·.z)) := rfl

lemma add_z_ok {rows : List Row} {c : Core} (h : add_z_coordinates rows = .ok c) :
    ∃ pf pa s e, locateFrames rows = .ok (pf, pa) ∧ ballAtFrame rows pf = some s ∧
      ballAtFrame rows pa = some e ∧ c = buildCore rows pf pa s e := by
  unfold add_z_coordinates at h
  split at h
  · exact absurd h (by simp)
  next pf pa heq =>
    split at h
    next s e hs he =>
      exact ⟨pf, pa, s, e, heq, hs, he, (Except.ok.inj h).symm⟩
    next =>
      exact absurd h (by simp)

lemma ballAtFrame_mem {rows : List Row} {f : Int} {s : Row} (h : ballAtFrame rows f = some s) :
    s ∈ rows ∧ s.displayName = some "football" ∧ s.frameId = f := by
  unfold ballAtFrame at h
  rcases hl : ((footballRows rows).filter (fun r => r.frameId = f)) with _ | ⟨x, xs⟩
  · rw [hl] at h
    exact absurd h (by simp)
  · rw [hl] at h
    have hx : x = s := by
      simpa using h
    subst hx
    have hmem : x ∈ (footballRows rows).filter (fun r => r.frameId = f) := by
      rw [hl]
      exact List.mem_cons_self x xs
    have h1 := List.mem_filter.mp hmem
    have h2 := List.mem_filter.mp ((by
      simpa [footballRows] using h1.1 : x ∈ rows.filter (fun r => r.displayName = some "football")))
    refine ⟨h2.1, ?_, ?_⟩
    · simpa using h2.2
    · simpa using h1.2

lemma arctan_le_self {x : ℝ} (hx : 0 ≤ x) : Real.arctan x ≤ x := by
  have h0 : 0 ≤ Real.arctan x := by
    have h := Real.arctan_strictMono.monotone hx
    simpa [Real.arctan_zero] using h
  have h := Real.le_tan h0 (Real.arctan_lt_pi_div_two x)
  rwa [Real.tan_arctan] at h

lemma sub_cube_le_arctan {x : ℝ} (hx : 0 ≤ x) : x - x ^ 3 / 3 ≤ Real.arctan x := by
  have hd : ∀ y : ℝ, HasDerivAt (fun y : ℝ => Real.arctan y - (y - y ^ 3 / 3))
      (1 / (1 + y ^ 2) - (1 - 3 * y ^ 2 / 3)) y := by
    intro y
    have h1 := Real.hasDerivAt_arctan y
    have hp : HasDerivAt (fun y : ℝ => y ^ 3) (3 * y ^ 2) y := by
      simpa using hasDerivAt_pow 3 y
    have h2 : HasDerivAt (fun y : ℝ => y - y ^ 3 / 3) (1 - 3 * y ^ 2 / 3) y := by
      simpa using (hasDerivAt_id y).sub (hp.div_const 3)
    exact h1.sub h2
  have hmono : Monotone (fun y : ℝ => Real.arctan y - (y - y ^ 3 / 3)) := by
    apply monotone_of_deriv_nonneg
    · exact fun y => (hd y).differentiableAt
    · intro y
      rw [(hd y).deriv]
      have h1 : (0 : ℝ) < 1 + y ^ 2 := by positivity
      have h2 : 1 / (1 + y ^ 2) - (1 - 3 * y ^ 2 / 3) = y ^ 4 / (1 + y ^ 2) := by
        field_simp
        ring
      rw [h2]
      positivity
  have h := hmono hx
  simp only [Real.arctan_zero] at h
  have h0 : (0 : ℝ) - (0 - 0 ^ 3 / 3) = 0 := by norm_num
  rw [h0] at h
  linarith [h]

lemma arctan_715_eq : Real.arctan (143 / 200) = Real.pi / 4 - Real.arctan (57 / 343) := by
  have h := Real.arctan_add (x := (143 : ℝ) / 200) (y := (57 : ℝ) / 343) (by norm_num)
  have h2 : ((143 : ℝ) / 200 + 57 / 343) / (1 - 143 / 200 * (57 / 343)) = 1 := by norm_num
  rw [h2, Real.arctan_one] at h
  linarith

lemma arctan_715_bounds :
    35.4 * Real.pi / 180 ≤ Real.arctan (143 / 200) ∧
      Real.arctan (143 / 200) ≤ 35.6 * Real.pi / 180 := by
  have hle := arctan_le_self (x := (57 : ℝ) / 343) (by norm_num)
  have hge := sub_cube_le_arctan (x := (57 : ℝ) / 343) (by norm_num)
  have hge' : (0.16465 : ℝ) ≤ Real.arctan (57 / 343) := by nlinarith [hge]
  have hpi1 : (3.14 : ℝ) < Real.pi := Real.pi_gt_d2
  have hpi2 : Real.pi < 3.15 := Real.pi_lt_d2
  rw [arctan_715_eq]
  constructor
  · nlinarith [hle, hpi1]
  · nlinarith [hge', hpi2]

/-- If some football row sits on the floor midpoint of the window,
then the maximum of the z column equals that row's z value. -/
lemma maxHeight_eq_mid {rows : List Row} {pf pa : Int} {rm : Row}
    (hle : pf ≤ pa) (hm : rm ∈ rows) (hball : rm.displayName = some "football")
    (hmid : rm.frameId = pf + (pa - pf) / 2) :
    listMaxQ ((rows.map (zassign pf pa)).map (·.z)) = (zassign pf pa rm).z := by
  have hm1 : pf ≤ rm.frameId := by omega
  have hm2 : rm.frameId ≤ pa := by omega
  have hzm : (zassign pf pa rm).z = specOffset pf pa rm.frameId := zassign_z_in hball hm1 hm2
  have hub : ∀ b ∈ (rows.map (zassign pf pa)).map (·.z), b ≤ (zassign pf pa rm).z := by
    intro b hb
    rw [List.mem_map] at hb
    obtain ⟨zr, hzr, rfl⟩ := hb
    rw [List.mem_map] at hzr
    obtain ⟨r, hr, rfl⟩ := hzr
    rw [hzm, hmid]
    by_cases hc : r.displayName = some "football" ∧ pf ≤ r.frameId ∧ r.frameId ≤ pa
    · rw [zassign_z_in hc.1 hc.2.1 hc.2.2]
      exact specOffset_le_mid hc.2.1 hc.2.2
    · rw [zassign_z_out hc]
      have h2 : (2 : ℚ) ≤ specOffset pf pa (pf + (pa - pf) / 2) :=
        two_le_specOffset (by omega) (by omega)
      linarith
  have hne : (rows.map (zassign pf pa)).map (·.z) ≠ [] := by
    simp only [ne_eq, List.map_eq_nil_iff]
    intro hcon
    rw [hcon] at hm
    cases hm
  obtain ⟨hmax_mem, hmax_ub⟩ := listMaxQ_spec hne
  have hzmem : (zassign pf pa rm).z ∈ (rows.map (zassign pf pa)).map (·.z) :=
    List.mem_map.mpr ⟨zassign pf pa rm, List.mem_map.mpr ⟨rm, hm, rfl⟩, rfl⟩
  exact le_antisymm (hub _ hmax_mem) (hmax_ub _ hzmem)

end Helpers

/-- C1: the claim says a coinciding release and arrival frame raises a
DegenerateFlight error before any division. The code has no such
guard and no such error: on a track whose release and arrival events
both sit on frame 20, add_z_coordinates completes normally and returns
a zero time_of_flight, having divided by it (NumPy float semantics
turn the divisions into inf or nan rather than an exception). -/
theorem claim1_degenerate_no_error :
    add_z_coordinates degenInput = .ok degenCore ∧
    degenCore.pass_forward_frame = degenCore.pass_arrived_frame ∧
    degenCore.time_of_flight = 0 := by
  refine ⟨rfl, rfl, ?_⟩
  rw [show degenCore.time_of_flight = ((20 - 20 : Int) : ℚ) / 10 from rfl]
  norm_num

/-- C4 counterexample: on a 60-frame ball track (frames 1..60) with no
event labels at all, the fallback estimates release as first frame
plus 10 and arrival 20 frames later, i.e. frames 11 and 31 - not the
claimed one-third and two-thirds frames 20 and 40, because the
len-thirds clamp fires only when the snap-based estimates leave the
frame range. -/
theorem claim4_counterexample :
    locateFrames noEventsInput = .ok (11, 31) ∧
      ¬ locateFrames noEventsInput = .ok (20, 40) := by
  refine ⟨rfl, ?_⟩
  intro hcon
  rw [show locateFrames noEventsInput = Except.ok ((11 : Int), (31 : Int)) from rfl] at hcon
  simp at hcon

/-- C4 amended: on the 60-frame eventless track, the fallback yields
release frame 11 (first frame plus 10) and arrival frame 31, and the
reconstruction succeeds with a positive (non-degenerate) flight
duration. -/
theorem claim4_fallback_window :
    add_z_coordinates noEventsInput = .ok noEventsCore ∧
    noEventsCore.pass_forward_frame = 11 ∧
    noEventsCore.pass_arrived_frame = 31 ∧
    0 < noEventsCore.time_of_flight := by
  refine ⟨rfl, rfl, rfl, ?_⟩
  rw [show noEventsCore.time_of_flight = ((31 - 11 : Int) : ℚ) / 10 from rfl]
  norm_num

set_option maxRecDepth 100000 in
/-- C5: the claim says a track without any ball-labeled row fails with
the named error MissingBallTrack. The code has no such error: the 3D
reconstruction dies with a low-level IndexError (all_frames[0] on an
empty list). The claim's 2D half does hold: the 2D animator still
emits frames with club markers, only the football marker is missing. -/
theorem claim5_missing_ball :
    add_z_coordinates noBallInput = .error .indexError ∧
    animate_play2d noBallInput 30 35 ≠ [] ∧
    (∀ fr ∈ animate_play2d noBallInput 30 35, ∀ t ∈ fr, isFootballMarker t = false) ∧
    (∀ fr ∈ animate_play2d noBallInput 30 35, ∃ t ∈ fr, isClubMarker t = true) := by
  refine ⟨rfl, ?_, ?_, ?_⟩
  · intro hcon
    rw [show animate_play2d noBallInput 30 35
        = frame2dData (noBallInput.filter (fun r => r.frameId = 1)) 30 35
          :: frame2dData (noBallInput.filter (fun r => r.frameId = 2)) 30 35 :: [] from rfl] at hcon
    cases hcon
  · decide
  · decide

/-- C2: for every successful reconstruction with release strictly
before arrival, the z column of every football row inside the window
equals the spec formula 2 + vz t - 0.5 GRAVITY t^2 with t = (f-r)/10
and vz = ((a-r)/10) GRAVITY / 2, and is exactly 0 on every football
row outside the window. -/
theorem claim2_offset_formula (rows : List Row) (c : Core)
    (h : add_z_coordinates rows = .ok c)
    (hlt : c.pass_forward_frame < c.pass_arrived_frame)
    (zr : ZRow) (hzr : zr ∈ c.zrows) (hb : zr.row.displayName = some "football") :
    (c.pass_forward_frame ≤ zr.row.frameId ∧ zr.row.frameId ≤ c.pass_arrived_frame →
      zr.z = specOffset c.pass_forward_frame c.pass_arrived_frame zr.row.frameId) ∧
    (¬(c.pass_forward_frame ≤ zr.row.frameId ∧ zr.row.frameId ≤ c.pass_arrived_frame) →
      zr.z = 0) := by
  obtain ⟨pf, pa, s, e, hl, hs, he, rfl⟩ := add_z_ok h
  rw [buildCore_zrows] at hzr
  rw [List.mem_map] at hzr
  obtain ⟨r, hr, rfl⟩ := hzr
  rw [zassign_row] at hb
  rw [buildCore_pf, buildCore_pa, zassign_row]
  constructor
  · intro hw
    exact zassign_z_in hb hw.1 hw.2
  · intro hn
    exact zassign_z_out (fun hc => hn ⟨hc.2.1, hc.2.2⟩)

/-- C2 witness: the theorem applied to the section-8 scenario input at
the frame-30 ball row. -/
theorem claim2_offset_formula_witness :
    add_z_coordinates throwInput = .ok throwCore ∧
    throwCore.pass_forward_frame < throwCore.pass_arrived_frame ∧
    zassign 20 40 (ballRow 30 none 25 0) ∈ throwCore.zrows ∧
    (zassign 20 40 (ballRow 30 none 25 0)).row.displayName = some "football" ∧
    ((throwCore.pass_forward_frame ≤ (zassign 20 40 (ballRow 30 none 25 0)).row.frameId ∧
        (zassign 20 40 (ballRow 30 none 25 0)).row.frameId ≤ throwCore.pass_arrived_frame →
      (zassign 20 40 (ballRow 30 none 25 0)).z =
        specOffset throwCore.pass_forward_frame throwCore.pass_arrived_frame
          (zassign 20 40 (ballRow 30 none 25 0)).row.frameId) ∧
     (¬(throwCore.pass_forward_frame ≤ (zassign 20 40 (ballRow 30 none 25 0)).row.frameId ∧
        (zassign 20 40 (ballRow 30 none 25 0)).row.frameId ≤ throwCore.pass_arrived_frame) →
      (zassign 20 40 (ballRow 30 none 25 0)).z = 0)) := by
  have hmem : zassign 20 40 (ballRow 30 none 25 0) ∈ throwCore.zrows := by
    show zassign 20 40 (ballRow 30 none 25 0) ∈ throwInput.map (zassign 20 40)
    exact List.mem_map.mpr ⟨ballRow 30 none 25 0, by simp [throwInput], rfl⟩
  exact ⟨rfl, by decide, hmem, rfl,
    claim2_offset_formula throwInput throwCore rfl (by decide)
      (zassign 20 40 (ballRow 30 none 25 0)) hmem rfl⟩

/-- C3: on the section-8 scenario (release frame 20 at (10,0), arrival
frame 40 at (40,0)) the reconstruction yields distance 30, duration 2,
horizontal speed 15, vertical speed 10.725, initial speed
sqrt(15^2 + 10.725^2) which lies in [18.43, 18.44], launch angle
arctan(10.725/15) in degrees which lies in [35.4, 35.6], and maximum
height 7.3625 attained at the midpoint frame 30. -/
theorem claim3_scenario :
    add_z_coordinates throwInput = .ok throwCore ∧
    distance throwCore = 30 ∧
    throwCore.time_of_flight = 2 ∧
    vxy throwCore = 15 ∧
    throwCore.vertical_velocity = 10.725 ∧
    v_0 throwCore = Real.sqrt (15 ^ 2 + 10.725 ^ 2) ∧
    (18.43 ≤ v_0 throwCore ∧ v_0 throwCore ≤ 18.44) ∧
    launch_angle throwCore = Real.arctan (10.725 / 15) * 180 / Real.pi ∧
    (35.4 ≤ launch_angle throwCore ∧ launch_angle throwCore ≤ 35.6) ∧
    throwCore.max_height = 7.3625 ∧
    (∃ zr ∈ throwCore.zrows, zr.row.frameId = 30 ∧ zr.z = throwCore.max_height) := by
  have hq : throwCore.distSq = 900 := by
    rw [show throwCore.distSq = ((10 : ℚ) - 40) ^ 2 + ((0 : ℚ) - 0) ^ 2 from rfl]
    norm_num
  have hdist : distance throwCore = 30 := by
    unfold distance
    rw [hq, show ((900 : ℚ) : ℝ) = (30 : ℝ) ^ 2 by norm_num]
    exact Real.sqrt_sq (by norm_num)
  have htof : throwCore.time_of_flight = 2 := by
    rw [show throwCore.time_of_flight = ((40 - 20 : Int) : ℚ) / 10 from rfl]
    norm_num
  have hvxy : vxy throwCore = 15 := by
    unfold vxy
    rw [hdist, htof]
    norm_num
  have hvz : throwCore.vertical_velocity = 10.725 := by
    rw [show throwCore.vertical_velocity = ((40 - 20 : Int) : ℚ) / 10 * GRAVITY / 2 from rfl]
    unfold GRAVITY
    norm_num
  have hvzR : ((throwCore.vertical_velocity : ℚ) : ℝ) = 10.725 := by
    rw [hvz]
    norm_num
  have hv0 : v_0 throwCore = Real.sqrt (15 ^ 2 + 10.725 ^ 2) := by
    unfold v_0
    rw [hvzR, hvxy, add_comm]
  have hA : ((15 : ℝ) ^ 2 + 10.725 ^ 2) = 340.025625 := by norm_num
  have hS2 : Real.sqrt (15 ^ 2 + 10.725 ^ 2) ^ 2 = 340.025625 := by
    rw [Real.sq_sqrt (by norm_num), hA]
  have hSnn : (0 : ℝ) ≤ Real.sqrt (15 ^ 2 + 10.725 ^ 2) := Real.sqrt_nonneg _
  have hb1 : (18.43 : ℝ) ≤ v_0 throwCore := by
    rw [hv0]
    nlinarith [hS2, hSnn]
  have hb2 : v_0 throwCore ≤ 18.44 := by
    rw [hv0]
    nlinarith [hS2, hSnn]
  have hangle : launch_angle throwCore = Real.arctan (10.725 / 15) * 180 / Real.pi := by
    unfold launch_angle
    rw [hvzR, hvxy]
  have hq715 : ((10.725 : ℝ) / 15) = 143 / 200 := by norm_num
  have hpi : (0 : ℝ) < Real.pi := Real.pi_pos
  obtain ⟨hlow, hhigh⟩ := arctan_715_bounds
  have ha1 : (35.4 : ℝ) ≤ launch_angle throwCore := by
    rw [hangle, hq715, le_div_iff₀ hpi]
    linarith
  have ha2 : launch_angle throwCore ≤ 35.6 := by
    rw [hangle, hq715, div_le_iff₀ hpi]
    linarith
  have hmem30 : ballRow 30 none 25 0 ∈ throwInput := by simp [throwInput]
  have hmaxq : listMaxQ ((throwInput.map (zassign 20 40)).map (·.z))
      = (zassign 20 40 (ballRow 30 none 25 0)).z :=
    maxHeight_eq_mid (by norm_num) hmem30 rfl rfl
  have hz30 : (zassign 20 40 (ballRow 30 none 25 0)).z = 7.3625 := by
    rw [zassign_z_in rfl (by decide) (by decide),
      show (ballRow 30 none 25 0).frameId = (30 : Int) from rfl]
    unfold specOffset
    push_cast
    norm_num
  have hmax : throwCore.max_height = 7.3625 := by
    rw [show throwCore.max_height = listMaxQ ((throwInput.map (zassign 20 40)).map (·.z)) from rfl,
      hmaxq, hz30]
  refine ⟨rfl, hdist, htof, hvxy, hvz, hv0, ⟨hb1, hb2⟩, hangle, ⟨ha1, ha2⟩, hmax, ?_⟩
  refine ⟨zassign 20 40 (ballRow 30 none 25 0), ?_, rfl, ?_⟩
  · show zassign 20 40 (ballRow 30 none 25 0) ∈ throwInput.map (zassign 20 40)
    exact List.mem_map.mpr ⟨ballRow 30 none 25 0, hmem30, rfl⟩
  · rw [hz30, hmax]

/-- C6 counterexample: the claim promises, for every valid input
(release strictly before arrival, both frames present), that the
maximum offset is attained at or before the window midpoint. On a
valid but non-contiguously sampled track (ball frames 20, 35, 40 only)
the maximum is attained only at frame 35, strictly after the midpoint
30. -/
theorem claim6_counterexample :
    add_z_coordinates gapInput = .ok gapCore ∧
    gapCore.pass_forward_frame < gapCore.pass_arrived_frame ∧
    ¬(∃ zr ∈ gapCore.zrows, zr.z = gapCore.max_height ∧
      2 * zr.row.frameId ≤ gapCore.pass_forward_frame + gapCore.pass_arrived_frame) := by
  have h1 : (zassign 20 40 (ballRow 20 (some "pass_forward") 10 0)).z = 2 := by
    rw [zassign_z_in rfl (by decide) (by decide),
      show (ballRow 20 (some "pass_forward") 10 0).frameId = (20 : Int) from rfl]
    unfold specOffset
    push_cast
    norm_num
  have h2 : (zassign 20 40 (ballRow 35 none 30 0)).z = 6.021875 := by
    rw [zassign_z_in rfl (by decide) (by decide),
      show (ballRow 35 none 30 0).frameId = (35 : Int) from rfl]
    unfold specOffset
    push_cast
    norm_num
  have h3 : (zassign 20 40 (ballRow 40 (some "pass_arrived") 40 0)).z = 2 := by
    rw [zassign_z_in rfl (by decide) (by decide),
      show (ballRow 40 (some "pass_arrived") 40 0).frameId = (40 : Int) from rfl]
    unfold specOffset
    push_cast
    norm_num
  have hmax : gapCore.max_height = 6.021875 := by
    rw [show gapCore.max_height
        = listMaxQ [(zassign 20 40 (ballRow 20 (some "pass_forward") 10 0)).z,
            (zassign 20 40 (ballRow 35 none 30 0)).z,
            (zassign 20 40 (ballRow 40 (some "pass_arrived") 40 0)).z] from rfl]
    rw [h1, h2, h3]
    show List.foldl max 2 [6.021875, 2] = 6.021875
    rw [List.foldl_cons, List.foldl_cons, List.foldl_nil,
      max_eq_right (by norm_num : (2 : ℚ) ≤ 6.021875),
      max_eq_left (by norm_num : (2 : ℚ) ≤ 6.021875)]
  refine ⟨rfl, by decide, ?_⟩
  rintro ⟨zr, hzr, hzeq, hle⟩
  rw [show gapCore.zrows = [zassign 20 40 (ballRow 20 (some "pass_forward") 10 0),
      zassign 20 40 (ballRow 35 none 30 0),
      zassign 20 40 (ballRow 40 (some "pass_arrived") 40 0)] from rfl] at hzr
  rw [hmax] at hzeq
  rw [show gapCore.pass_forward_frame = (20 : Int) from rfl,
    show gapCore.pass_arrived_frame = (40 : Int) from rfl] at hle
  rcases List.mem_cons.mp hzr with rfl | hzr2
  · rw [h1] at hzeq
    norm_num at hzeq
  · rcases List.mem_cons.mp hzr2 with rfl | hzr3
    · rw [show (zassign 20 40 (ballRow 35 none 30 0)).row.frameId = (35 : Int) from rfl] at hle
      omega
    · rcases List.mem_cons.mp hzr3 with rfl | hzr4
      · rw [h3] at hzeq
        norm_num at hzeq
      · cases hzr4

/-- C6 amended: for every successful reconstruction with release
strictly before arrival whose airborne window is contiguously sampled
by football rows (every integer frame of [release, arrival] appears),
all z offsets are non-negative, football rows outside the window have
offset exactly 0, the maximum offset is attained at a frame at or
before the window midpoint, and offsets are exactly symmetric about
the midpoint (offset(release + d) = offset(arrival - d)). -/
theorem claim6_offsets (rows : List Row) (c : Core)
    (h : add_z_coordinates rows = .ok c)
    (hlt : c.pass_forward_frame < c.pass_arrived_frame)
    (hcover : ∀ f ∈ Finset.Icc c.pass_forward_frame c.pass_arrived_frame,
      ∃ r ∈ rows, r.displayName = some "football" ∧ r.frameId = f) :
    (∀ zr ∈ c.zrows, 0 ≤ zr.z) ∧
    (∀ zr ∈ c.zrows, zr.row.displayName = some "football" →
      (zr.row.frameId < c.pass_forward_frame ∨ c.pass_arrived_frame < zr.row.frameId) →
      zr.z = 0) ∧
    (∃ zr ∈ c.zrows, zr.z = c.max_height ∧
      2 * zr.row.frameId ≤ c.pass_forward_frame + c.pass_arrived_frame) ∧
    (∀ zr1 ∈ c.zrows, ∀ zr2 ∈ c.zrows,
      zr1.row.displayName = some "football" → zr2.row.displayName = some "football" →
      zr1.row.frameId - c.pass_forward_frame = c.pass_arrived_frame - zr2.row.frameId →
      zr1.z = zr2.z) := by
  obtain ⟨pf, pa, s, e, hl, hs, he, rfl⟩ := add_z_ok h
  rw [buildCore_pf, buildCore_pa] at hlt hcover
  simp only [buildCore_pf, buildCore_pa, buildCore_zrows, buildCore_maxh]
  refine ⟨?_, ?_, ?_, ?_⟩
  · intro zr hzr
    rw [List.mem_map] at hzr
    obtain ⟨r, hr, rfl⟩ := hzr
    by_cases hc : r.displayName = some "football" ∧ pf ≤ r.frameId ∧ r.frameId ≤ pa
    · rw [zassign_z_in hc.1 hc.2.1 hc.2.2]
      exact specOffset_nonneg hc.2.1 hc.2.2
    · rw [zassign_z_out hc]
  · intro zr hzr hb hout
    rw [List.mem_map] at hzr
    obtain ⟨r, hr, rfl⟩ := hzr
    rw [zassign_row] at hout
    exact zassign_z_out (fun hc => by omega)
  · have hmmem : pf + (pa - pf) / 2 ∈ Finset.Icc pf pa := by
      rw [Finset.mem_Icc]
      omega
    obtain ⟨rm, hrm, hballm, hfm⟩ := hcover _ hmmem
    have hmq := maxHeight_eq_mid (le_of_lt hlt) hrm hballm hfm
    refine ⟨zassign pf pa rm, List.mem_map.mpr ⟨rm, hrm, rfl⟩, hmq.symm, ?_⟩
    rw [zassign_row]
    omega
  · intro zr1 hzr1 zr2 hzr2 hb1 hb2 hdelta
    rw [List.mem_map] at hzr1 hzr2
    obtain ⟨r1, hr1, rfl⟩ := hzr1
    obtain ⟨r2, hr2, rfl⟩ := hzr2
    simp only [zassign_row] at hb1 hb2 hdelta
    by_cases hw1 : pf ≤ r1.frameId ∧ r1.frameId ≤ pa
    · have hw2 : pf ≤ r2.frameId ∧ r2.frameId ≤ pa := by omega
      rw [zassign_z_in hb1 hw1.1 hw1.2, zassign_z_in hb2 hw2.1 hw2.2]
      exact specOffset_symm hdelta
    · have hw2 : ¬(pf ≤ r2.frameId ∧ r2.frameId ≤ pa) := by omega
      rw [zassign_z_out (fun hc => hw1 ⟨hc.2.1, hc.2.2⟩),
        zassign_z_out (fun hc => hw2 ⟨hc.2.1, hc.2.2⟩)]

set_option maxRecDepth 100000 in
/-- C6 witness: the amended theorem applied to the contiguously
sampled section-8 scenario input. -/
theorem claim6_offsets_witness :
    add_z_coordinates throwInput = .ok throwCore ∧
    throwCore.pass_forward_frame < throwCore.pass_arrived_frame ∧
    (∀ f ∈ Finset.Icc throwCore.pass_forward_frame throwCore.pass_arrived_frame,
      ∃ r ∈ throwInput, r.displayName = some "football" ∧ r.frameId = f) ∧
    ((∀ zr ∈ throwCore.zrows, 0 ≤ zr.z) ∧
     (∀ zr ∈ throwCore.zrows, zr.row.displayName = some "football" →
       (zr.row.frameId < throwCore.pass_forward_frame ∨
         throwCore.pass_arrived_frame < zr.row.frameId) → zr.z = 0) ∧
     (∃ zr ∈ throwCore.zrows, zr.z = throwCore.max_height ∧
       2 * zr.row.frameId ≤ throwCore.pass_forward_frame + throwCore.pass_arrived_frame) ∧
     (∀ zr1 ∈ throwCore.zrows, ∀ zr2 ∈ throwCore.zrows,
       zr1.row.displayName = some "football" → zr2.row.displayName = some "football" →
       zr1.row.frameId - throwCore.pass_forward_frame
         = throwCore.pass_arrived_frame - zr2.row.frameId →
       zr1.z = zr2.z)) :=
  ⟨rfl, by decide, by decide,
    claim6_offsets throwInput throwCore rfl (by decide) (by decide)⟩

/-- C7: for every successful reconstruction with positive flight
duration, horizontal speed times duration equals the Euclidean
distance between the looked-up release and arrival ground positions,
and those positions are the ones of actual football rows at the
release and arrival frames. -/
theorem claim7_roundtrip (rows : List Row) (c : Core)
    (h : add_z_coordinates rows = .ok c) (hpos : 0 < c.time_of_flight) :
    vxy c * ((c.time_of_flight : ℚ) : ℝ) = distance c ∧
    distance c
      = Real.sqrt (((c.start_x - c.end_x : ℚ) : ℝ) ^ 2 + ((c.start_y - c.end_y : ℚ) : ℝ) ^ 2) ∧
    (∃ s ∈ rows, s.displayName = some "football" ∧ s.frameId = c.pass_forward_frame ∧
      s.x = c.start_x ∧ s.y = c.start_y) ∧
    (∃ e2 ∈ rows, e2.displayName = some "football" ∧ e2.frameId = c.pass_arrived_frame ∧
      e2.x = c.end_x ∧ e2.y = c.end_y) := by
  have htofne : ((c.time_of_flight : ℚ) : ℝ) ≠ 0 := by
    have hpos2 : (0 : ℝ) < ((c.time_of_flight : ℚ) : ℝ) := by exact_mod_cast hpos
    linarith
  obtain ⟨pf, pa, s, e, hl, hs, he, rfl⟩ := add_z_ok h
  refine ⟨?_, ?_, ?_, ?_⟩
  · unfold vxy
    exact div_mul_cancel₀ _ htofne
  · unfold distance
    rw [buildCore_distSq, buildCore_sx, buildCore_sy, buildCore_ex, buildCore_ey]
    congr 1
    push_cast
    ring
  · obtain ⟨hmem, hname, hframe⟩ := ballAtFrame_mem hs
    exact ⟨s, hmem, hname, by rw [buildCore_pf]; exact hframe,
      by rw [buildCore_sx], by rw [buildCore_sy]⟩
  · obtain ⟨hmem, hname, hframe⟩ := ballAtFrame_mem he
    exact ⟨e, hmem, hname, by rw [buildCore_pa]; exact hframe,
      by rw [buildCore_ex], by rw [buildCore_ey]⟩

/-- C7 witness: the theorem applied to the section-8 scenario input. -/
theorem claim7_roundtrip_witness :
    add_z_coordinates throwInput = .ok throwCore ∧
    0 < throwCore.time_of_flight ∧
    (vxy throwCore * ((throwCore.time_of_flight : ℚ) : ℝ) = distance throwCore ∧
     distance throwCore = Real.sqrt (((throwCore.start_x - throwCore.end_x : ℚ) : ℝ) ^ 2
        + ((throwCore.start_y - throwCore.end_y : ℚ) : ℝ) ^ 2) ∧
     (∃ s ∈ throwInput, s.displayName = some "football" ∧
        s.frameId = throwCore.pass_forward_frame ∧
        s.x = throwCore.start_x ∧ s.y = throwCore.start_y) ∧
     (∃ e2 ∈ throwInput, e2.displayName = some "football" ∧
        e2.frameId = throwCore.pass_arrived_frame ∧
        e2.x = throwCore.end_x ∧ e2.y = throwCore.end_y)) := by
  have hpos : 0 < throwCore.time_of_flight := by
    rw [show throwCore.time_of_flight = ((40 - 20 : Int) : ℚ) / 10 from rfl]
    norm_num
  exact ⟨rfl, hpos, claim7_roundtrip throwInput throwCore rfl hpos⟩

/-- C8: the reconstruction is a pure deterministic function of the
tracking rows: equal inputs give equal outputs (the full augmented
rows and all metrics), and every successful output carries the input
rows unchanged inside its zrows (the code works on a copy and never
mutates the input columns it reads). -/
theorem claim8_deterministic (rows rows2 : List Row) (h : rows = rows2) :
    add_z_coordinates rows = add_z_coordinates rows2 ∧
    (∀ c : Core, add_z_coordinates rows = .ok c → c.zrows.map ZRow.row = rows) := by
  subst h
  refine ⟨rfl, ?_⟩
  intro c hc
  obtain ⟨pf, pa, s, e, _hl, _hs, _he, rfl⟩ := add_z_ok hc
  rw [buildCore_zrows, List.map_map]
  have hcomp : (ZRow.row ∘ zassign pf pa) = id := funext (fun r => zassign_row pf pa r)
  rw [hcomp, List.map_id]

/-- C8 witness: the theorem applied to the section-8 scenario input. -/
theorem claim8_deterministic_witness :
    add_z_coordinates throwInput = add_z_coordinates throwInput ∧
    throwCore.zrows.map ZRow.row = throwInput :=
  ⟨(claim8_deterministic throwInput throwInput rfl).1,
   (claim8_deterministic throwInput throwInput rfl).2 throwCore rfl⟩

/-- C9: every frame emitted by the 3D animator carries the identical
field-surface list as a suffix, and every frame emitted by the 2D
animator carries the identical field-marker list as a prefix: the
field primitives (count and coordinates) are the same in every frame
of one animation. -/
theorem claim9_field_invariant (rows : List Row) (frames : List (List Trace3d))
    (h3 : animate_play3d rows = .ok frames) (los fd : ℚ) :
    (∀ fr ∈ frames, ∃ pre, fr = pre ++ create_field_surface) ∧
    (∀ fr ∈ animate_play2d rows los fd, ∃ suf, fr = create_field_markers ++ suf) := by
  constructor
  · intro fr hfr
    unfold animate_play3d at h3
    split at h3
    · exact absurd h3 (by simp)
    next c hceq =>
      have hfr2 : frames = (uniqueSorted (c.zrows.map (·.row.frameId))).map
          (fun f => frame3dTraces c.zrows f ++ create_field_surface) := (Except.ok.inj h3).symm
      rw [hfr2, List.mem_map] at hfr
      obtain ⟨f, _, rfl⟩ := hfr
      exact ⟨frame3dTraces c.zrows f, rfl⟩
  · intro fr hfr
    unfold animate_play2d at hfr
    rw [List.mem_map] at hfr
    obtain ⟨f, _, rfl⟩ := hfr
    exact ⟨_, rfl⟩

/-- The 3D frame sequence on throwInput. -/
def throwFrames3d : List (List Trace3d) := (animate_play3d throwInput).toOption.getD []

/-- C9 witness: the theorem applied to the section-8 scenario input. -/
theorem claim9_field_invariant_witness :
    animate_play3d throwInput = .ok throwFrames3d ∧
    ((∀ fr ∈ throwFrames3d, ∃ pre, fr = pre ++ create_field_surface) ∧
     (∀ fr ∈ animate_play2d throwInput 30 35, ∃ suf, fr = create_field_markers ++ suf)) :=
  ⟨rfl, claim9_field_invariant throwInput throwFrames3d rfl 30 35⟩

set_option maxRecDepth 100000 in
lemma field_markers_no_football : ∀ t ∈ create_field_markers, isFootballMarker t = false := by
  decide

/-- C10: in the 2D animator the two ball-detection rules can disagree:
the football marker of a frame is emitted iff some row of the frame
has a null nflId, while exclusion from the club marker groups uses
displayName equality with the string football; a row with a non-null
nflId and displayName football is therefore rendered neither as a
player nor as the football. -/
theorem claim10_ball_detection (frameRows : List Row) (los fd : ℚ) (r : Row)
    (hr : r ∈ frameRows) (hid : r.nflId ≠ none) (hname : r.displayName = some "football") :
    ((∃ t ∈ frame2dData frameRows los fd, isFootballMarker t = true) ↔
      ∃ r2 ∈ frameRows, r2.nflId = none) ∧
    (∀ club, r ∉ clubRows2d frameRows club) ∧
    r ∉ footballRows2d frameRows := by
  refine ⟨⟨?_, ?_⟩, ?_, ?_⟩
  · rintro ⟨t, ht, hfoot⟩
    unfold frame2dData at ht
    rcases List.mem_append.mp ht with hfield | hrest
    · rw [field_markers_no_football t hfield] at hfoot
      cases hfoot
    · rcases List.mem_append.mp hrest with hlos | hrest2
      · rcases List.mem_cons.mp hlos with rfl | hlos2
        · simp [isFootballMarker] at hfoot
        · rcases List.mem_cons.mp hlos2 with rfl | hlos3
          · simp [isFootballMarker] at hfoot
          · cases hlos3
      · rcases List.mem_append.mp hrest2 with hclub | hfootp
        · rw [List.mem_map] at hclub
          obtain ⟨cl, _, rfl⟩ := hclub
          simp [isFootballMarker] at hfoot
        · by_cases hemp : (footballRows2d frameRows).isEmpty
          · rw [if_pos hemp] at hfootp
            cases hfootp
          · rcases hne : footballRows2d frameRows with _ | ⟨r2, rest⟩
            · rw [hne] at hemp
              exact absurd rfl hemp
            · have hm2 : r2 ∈ footballRows2d frameRows := by
                rw [hne]
                exact List.mem_cons_self r2 rest
              unfold footballRows2d at hm2
              have h2 := List.mem_filter.mp hm2
              exact ⟨r2, h2.1, by simpa using h2.2⟩
  · rintro ⟨r2, hr2, hnull⟩
    have hmem : r2 ∈ footballRows2d frameRows := by
      unfold footballRows2d
      exact List.mem_filter.mpr ⟨hr2, by simp [hnull]⟩
    have hneb : ¬(footballRows2d frameRows).isEmpty := by
      rcases hfe : footballRows2d frameRows with _ | ⟨a, l⟩
      · rw [hfe] at hmem
        cases hmem
      · simp [List.isEmpty]
    refine ⟨Trace2d.markers ((footballRows2d frameRows).map (·.x))
        ((footballRows2d frameRows).map (·.y))
        "football" (colorGet "football") 8 (some "diamond"), ?_, by simp [isFootballMarker]⟩
    unfold frame2dData
    refine List.mem_append.mpr (Or.inr (List.mem_append.mpr (Or.inr
      (List.mem_append.mpr (Or.inr ?_)))))
    rw [if_neg hneb]
    exact List.mem_singleton.mpr rfl
  · intro club hmem
    unfold clubRows2d at hmem
    have h2 := List.mem_filter.mp hmem
    have h3 := h2.2
    simp [hname] at h3
  · intro hmem
    unfold footballRows2d at hmem
    have h2 := List.mem_filter.mp hmem
    exact hid (by simpa using h2.2)

/-- A malformed row: displayName football but a non-null nflId. -/
def oddBallRow : Row :=
  { displayName := some "football", nflId := some 5, club := some "football",
    frameId := 1, event := none, x := 12, y := 12 }

/-- A one-frame track holding the malformed row plus a proper
null-nflId football row. -/
def oddBallRows : List Row := [oddBallRow, ballRow 1 none 9 9]

/-- C10 witness: the theorem applied to the malformed concrete row. -/
theorem claim10_ball_detection_witness :
    oddBallRow ∈ oddBallRows ∧ oddBallRow.nflId ≠ none ∧
    oddBallRow.displayName = some "football" ∧
    (((∃ t ∈ frame2dData oddBallRows 30 35, isFootballMarker t = true) ↔
       ∃ r2 ∈ oddBallRows, r2.nflId = none) ∧
     (∀ club, oddBallRow ∉ clubRows2d oddBallRows club) ∧
     oddBallRow ∉ footballRows2d oddBallRows) :=
  ⟨List.mem_cons_self oddBallRow _, by decide, rfl,
    claim10_ball_detection oddBallRows 30 35 oddBallRow
      (List.mem_cons_self oddBallRow _) (by decide) rfl⟩

end NFL
